import Mathlib

/-
  Verification development for the student Face-ID attendance system
  (backend/database.py, backend/main.py, backend/services/attendance_service.py,
   backend/services/siamese_network.py, backend/services/face_recognition_service.py).

  The Python code is shallowly embedded: real-valued scores become rationals,
  datetimes are split into a calendar-date string plus a seconds-since-midnight
  Nat (Python compares `datetime.time` values lexicographically over
  (hour, minute, second, microsecond), which is order-isomorphic to comparing
  total seconds/microseconds of the day), the ORM session becomes an explicit
  DB value threaded through each handler, and the learned numeric pipeline
  (MobileNetV2 embeddings, MediaPipe landmarks, OpenCV statistics) is
  represented by the numeric outputs it feeds into the decision logic.
-/

namespace StudentFaceID

/-! ## Data model (backend/database.py) -/

/-- `Student` row (backend/database.py, class Student). Only the columns the
verified handlers read are kept; `face_encoding` is the nullable serialized
embedding (`Text` column, JSON string). -/
structure Student where
  register_number : String
  name : String
  is_active : Bool
  face_encoding : Option String
deriving DecidableEq

/-- `AttendanceRecord` row (backend/database.py, class AttendanceRecord).
`date` is the YYYY-MM-DD string column; `timeOfDay` is the time-of-day of the
stored capture `DateTime` in seconds since midnight; `updated_at` stands for
the audit timestamp column. Blockchain/notification-type columns are not read
by any verified handler and are omitted. -/
structure AttendanceRecord where
  id : Nat
  student_register_number : String
  date : String
  timeOfDay : Nat
  updated_at : Nat
  status : String
  verification_method : String
  face_confidence : ℚ
  qr_verified : Bool
  verification_status : String
  verified_by : Option String
  verification_notes : Option String
  notification_sent : Bool
deriving DecidableEq

/-- `PendingVerification` row (backend/database.py, class PendingVerification).
Note: the declared columns are exactly `id, attendance_record_id,
student_register_number, student_name, date, time, face_confidence,
manual_register_number, status, reviewed_by, review_notes, reviewed_at,
created_at` — there is no `timestamp`, `verified_by`, `verification_notes`
or `resolved_at` attribute, which matters for the /verify_pending_attendance
endpoint below. -/
structure PendingVerification where
  id : Nat
  attendance_record_id : Nat
  student_register_number : String
  student_name : String
  date : String
  timeOfDay : Nat
  face_confidence : ℚ
  manual_register_number : Option String
  status : String
  reviewed_by : Option String
  review_notes : Option String
deriving DecidableEq

/-- The persisted store the handlers query and mutate. -/
structure DB where
  students : List Student
  records : List AttendanceRecord
  pendings : List PendingVerification
deriving DecidableEq

/-- Hard-coded cutoff of backend/main.py (`time(8, 45)`) and the default of
`ATTENDANCE_CUTOFF_TIME` in AttendanceService.__init__ ("08:45"), in seconds
since midnight. -/
def cutoffSeconds : Nat := 8 * 3600 + 45 * 60

/-- Default `SIAMESE_THRESHOLD` (siamese_network.py line 31, "0.6"). -/
def defaultSiameseThreshold : ℚ := 6 / 10

/-- Default `LIVENESS_THRESHOLD` (siamese_network.py line 32, "0.35"). -/
def defaultLivenessThreshold : ℚ := 35 / 100

/-! ## Liveness evaluator (backend/services/siamese_network.py)

The three signal extractors work on pixel data; each is embedded as a function
of the numeric features the source derives from the image, with one
constructor per exceptional control path of the source. -/

/-- Input to `_check_face_mesh_liveness`: the face-mesh evaluator may be
unavailable (`self.face_mesh is None`), raise internally, find no landmarks
(`results.multi_face_landmarks` empty), or yield landmarks summarized by the
z-coordinate standard deviation and the two per-eye vertical distances
`abs(eye[1].y - eye[5].y)` the source computes. -/
inductive MeshInput where
  | unavailable : MeshInput
  | meshError : MeshInput
  | noLandmarks : MeshInput
  | landmarks (zStd leftEyeHeight rightEyeHeight : ℚ) : MeshInput
deriving DecidableEq

/-- `_calculate_eye_aspect_ratio` (siamese_network.py lines 436-453):
average of the two eye heights, 1.0 inside the (0.15, 0.35) band, 0.5 outside. -/
def calculate_eye_aspect (leftEyeHeight rightEyeHeight : ℚ) : ℚ :=
  let avg_height := (leftEyeHeight + rightEyeHeight) / 2
  if 15 / 100 < avg_height ∧ avg_height < 35 / 100 then 1 else 1 / 2

/-- `_check_face_mesh_liveness` (siamese_network.py lines 333-372):
1.0 when the evaluator is unavailable or raises, 0.0 when no landmarks are
found, otherwise 0.7 * depth score + 0.3 * eye score where the depth score is
`min(z_std * 20, 1)` above the 0.02 depth-variation threshold and `z_std * 10`
below it. -/
def check_face_mesh_liveness : MeshInput → ℚ
  | MeshInput.unavailable => 1
  | MeshInput.meshError => 1
  | MeshInput.noLandmarks => 0
  | MeshInput.landmarks zStd lH rH =>
      let depth_score := if zStd > 2 / 100 then min (zStd * 20) 1 else zStd * 10
      let eye_score := calculate_eye_aspect lH rH
      depth_score * (7 / 10) + eye_score * (3 / 10)

/-- Input to `_check_texture_liveness`: an internal exception, or the Laplacian
variance together with the raw (unclamped) frequency-pattern value
`1 - std(magnitude)/mean(magnitude)`. -/
inductive TextureInput where
  | texError : TextureInput
  | features (laplacianVariance patternRaw : ℚ) : TextureInput
deriving DecidableEq

/-- `_check_texture_liveness` (siamese_network.py lines 374-403): 1.0 on an
exception; otherwise 0.7 * texture score + 0.3 * clamped pattern score, the
texture score being `min(variance/500, 1)` above variance 100 and
`variance/200` below it. -/
def check_texture_liveness : TextureInput → ℚ
  | TextureInput.texError => 1
  | TextureInput.features v p =>
      let texture_score := if v > 100 then min (v / 500) 1 else v / 200
      let pattern_score := max 0 (min 1 p)
      texture_score * (7 / 10) + pattern_score * (3 / 10)

/-- Input to `_check_color_distribution`: an internal exception, or the
skin-hue pixel fraction and the saturation standard deviation of the
center crop. -/
inductive ColorInput where
  | colorError : ColorInput
  | features (skinFraction satStd : ℚ) : ColorInput
deriving DecidableEq

/-- `_check_color_distribution` (siamese_network.py lines 405-434): 1.0 on an
exception; otherwise 0.6 * skin fraction + 0.4 * min(sat_std/50, 1). -/
def check_color_distribution : ColorInput → ℚ
  | ColorInput.colorError => 1
  | ColorInput.features skinFraction satStd =>
      let sat_score := min (satStd / 50) 1
      skinFraction * (6 / 10) + sat_score * (4 / 10)

/-- Input to `check_liveness`: `cv2.imdecode` may fail (`image is None`), the
whole evaluation may raise, or the image decodes and the three signal inputs
are available. -/
inductive LivenessImage where
  | undecodable : LivenessImage
  | livenessError : LivenessImage
  | decoded (mesh : MeshInput) (texture : TextureInput) (color : ColorInput) : LivenessImage
deriving DecidableEq

/-- `check_liveness` (siamese_network.py lines 288-331): `(False, 0.0)` when the
image does not decode, `(True, 1.0)` when the evaluation raises ("default to
live if check fails to avoid blocking"), otherwise the fixed weighted
combination `mesh * 0.5 + texture * 0.3 + color * 0.2` compared against the
liveness threshold. -/
def check_liveness (livenessThreshold : ℚ) : LivenessImage → Bool × ℚ
  | LivenessImage.undecodable => (false, 0)
  | LivenessImage.livenessError => (true, 1)
  | LivenessImage.decoded m t c =>
      let liveness_score :=
        check_face_mesh_liveness m * (5 / 10) +
        check_texture_liveness t * (3 / 10) +
        check_color_distribution c * (2 / 10)
      (decide (liveness_score ≥ livenessThreshold), liveness_score)

/-! ## Similarity matcher (siamese_network.py / face_recognition_service.py) -/

/-- One capture event. `faceFound` is whether `encode_face` detects a face and
returns an embedding, `encoding` is that serialized embedding, `sim` gives the
`_calculate_similarity` cosine value (already rescaled to [0,1]) between the
capture's embedding and a stored serialized encoding, and `live` drives the
liveness evaluator. The learned network itself is opaque; only these outputs
reach the decision logic. -/
structure Capture where
  faceFound : Bool
  encoding : String
  sim : String → ℚ
  live : LivenessImage

/-- `SiameseNetworkService.verify_face` (siamese_network.py lines 248-286):
fails to `(False, 0.0)` when no face is found in the verification image,
otherwise compares the similarity against the threshold (`similarity >=
self.threshold`). `FaceRecognitionService.verify_face` with
`USE_SIAMESE_NETWORK=true` (the default) delegates here. -/
def verify_face (threshold : ℚ) (c : Capture) (stored_encoding : String) : Bool × ℚ :=
  if c.faceFound then
    let similarity := c.sim stored_encoding
    (decide (similarity ≥ threshold), similarity)
  else (false, 0)

/-- `SiameseNetworkService.verify_face_with_liveness` (siamese_network.py lines
217-246) with `check_liveness=True` (the value every verified caller uses):
if the liveness check fails the function short-circuits to
`(False, 0.0, False)`; otherwise it returns the `verify_face` outcome with
`is_live = True`. -/
def verify_face_with_liveness (threshold livenessThreshold : ℚ)
    (c : Capture) (stored_encoding : String) : Bool × ℚ × Bool :=
  let live := check_liveness livenessThreshold c.live
  if live.1 = false then (false, 0, false)
  else
    let v := verify_face threshold c stored_encoding
    (v.1, v.2, true)

/-- The `(is_match, confidence)` a candidate student contributes during
identification: `verify_face` against the stored encoding when one exists
(queries below filter on a non-null encoding, so the `none` arm is inert). -/
def candConf (thr : ℚ) (c : Capture) (s : Student) : Bool × ℚ :=
  match s.face_encoding with
  | some enc => verify_face thr c enc
  | none => (false, 0)

/-- One iteration of the `find_matching_student` scan
(face_recognition_service.py lines 200-205): replace the current best only
when the candidate matches with strictly higher confidence
(`if is_match and confidence > highest_confidence`). -/
def fmsStep (thr : ℚ) (c : Capture) (acc : Option Student × ℚ) (s : Student) :
    Option Student × ℚ :=
  if (candConf thr c s).1 = true ∧ acc.2 < (candConf thr c s).2 then
    (some s, (candConf thr c s).2)
  else acc

/-- `FaceRecognitionService.find_matching_student` (face_recognition_service.py
lines 185-215): scan all active students with a non-null face encoding,
starting from `best_match = None, highest_confidence = 0.0`, fold the
best-match update, and return the best with its confidence or `none`. -/
def find_matching_student (thr : ℚ) (c : Capture) (students : List Student) :
    Option (Student × ℚ) :=
  match (students.filter (fun s => s.is_active && s.face_encoding.isSome)).foldl
      (fmsStep thr c) (none, 0) with
  | (some s, conf) => some (s, conf)
  | (none, _) => none

/-- One iteration of the /identify_student_from_face loop (main.py lines
703-720): verify with liveness, `continue` past the student when not live,
otherwise keep the strictly-higher-confidence match. -/
def identifyStep (thr lthr : ℚ) (c : Capture) (acc : Option Student × ℚ)
    (s : Student) : Option Student × ℚ :=
  match s.face_encoding with
  | some enc =>
      let v := verify_face_with_liveness thr lthr c enc
      if v.2.2 = false then acc
      else if v.1 = true ∧ acc.2 < v.2.1 then (some s, v.2.1) else acc
  | none => acc

/-- /identify_student_from_face (main.py lines 678-737): scan every active
student with a face encoding, skip non-live comparisons, and report the best
match only when its confidence exceeds the hard-coded 0.5 identification bar. -/
def identify_student_from_face (thr lthr : ℚ) (c : Capture)
    (students : List Student) : Option (Student × ℚ) :=
  let cands := students.filter (fun s => s.is_active && s.face_encoding.isSome)
  let r := cands.foldl (identifyStep thr lthr c) (none, 0)
  match r.1 with
  | some s => if r.2 > 1 / 2 then some (s, r.2) else none
  | none => none

/-! ## Attendance handlers (backend/services/attendance_service.py) -/

/-- Result dict shape of AttendanceService handlers: either an error message or
a success with the resulting attendance status, verification method and face
confidence. -/
inductive SvcResult where
  | error (message : String) : SvcResult
  | success (attendance_status verification_method : String) (face_confidence : ℚ) : SvcResult
deriving DecidableEq

/-- Attendance status carried by a result, if any. -/
def svcStatus : SvcResult → Option String
  | SvcResult.success st _ _ => some st
  | SvcResult.error _ => none

/-- `QRBarcodeService.verify_student_qr` (qr_service.py lines 412-452) after the
register number has been extracted from the decoded QR payload: look up an
active student with that register number (`none` when the payload carried no
register number or the student is missing/inactive). -/
def verify_student_qr (db : DB) (qrDecoded : Option String) : Option Student :=
  match qrDecoded with
  | none => none
  | some reg => db.students.find? (fun s => s.register_number == reg && s.is_active)

/-- The duplicate-attendance query shared by every handler:
`AttendanceRecord.student_register_number == reg, AttendanceRecord.date ==
current_date`, `.first()`. -/
def findAttendanceToday (records : List AttendanceRecord) (reg date : String) :
    Option AttendanceRecord :=
  records.find? (fun r => r.student_register_number == reg && r.date == date)

/-- `AttendanceService._handle_face_qr_attendance` (attendance_service.py lines
84-199). `qrDecoded` is the register number decoded from the QR image (`none`
when `decode_qr_from_image` fails), `notifOk` is whether the late-notification
side call reports success (it only toggles `notification_sent`). The
duplicate check runs before face verification; face verification is skipped
(and fails) when the student has no stored encoding. -/
def handle_face_qr_attendance (threshold : ℚ) (c : Capture) (qrDecoded : Option String)
    (nowTime : Nat) (currentDate : String) (cutoff : Nat) (notifOk : Bool)
    (db : DB) : SvcResult × DB :=
  if qrDecoded.isNone then (SvcResult.error "Invalid or unreadable QR code", db)
  else
    match verify_student_qr db qrDecoded with
    | none => (SvcResult.error "Student not found or inactive", db)
    | some student =>
        match findAttendanceToday db.records student.register_number currentDate with
        | some existing =>
            (SvcResult.error ("Attendance already marked for today: " ++ existing.status), db)
        | none =>
            let v := match student.face_encoding with
                     | some enc => verify_face threshold c enc
                     | none => (false, 0)
            if v.1 = false then
              (SvcResult.error "Face verification failed. Please ensure proper lighting and positioning.", db)
            else
              let is_late := nowTime > cutoff
              let attendance_status := if is_late then "Late" else "Present"
              let rec0 : AttendanceRecord :=
                { id := 0, student_register_number := student.register_number,
                  date := currentDate, timeOfDay := nowTime, updated_at := 0,
                  status := attendance_status, verification_method := "face_qr",
                  face_confidence := v.2, qr_verified := true,
                  verification_status := "verified", verified_by := none,
                  verification_notes := none, notification_sent := false }
              let rec1 := if is_late && notifOk then { rec0 with notification_sent := true } else rec0
              (SvcResult.success attendance_status "face_qr" v.2,
               { db with records := db.records ++ [rec1] })

/-- `AttendanceService._handle_forgot_id_attendance` (attendance_service.py
lines 201-305): look up the active student by the manually supplied register
number, reject duplicates, then require the face to verify against the stored
encoding — on failure the attempt is rejected with an error and no record is
created; on success a Pending / face_only / verification_status="pending"
record is committed. -/
def handle_forgot_id_attendance (threshold : ℚ) (c : Capture) (register_number : String)
    (nowTime : Nat) (currentDate : String) (notifOk : Bool) (db : DB) : SvcResult × DB :=
  match db.students.find? (fun s => s.register_number == register_number && s.is_active) with
  | none => (SvcResult.error "Student not found with provided register number", db)
  | some student =>
      match findAttendanceToday db.records student.register_number currentDate with
      | some existing =>
          (SvcResult.error ("Attendance already marked for today: " ++ existing.status), db)
      | none =>
          let v := match student.face_encoding with
                   | some enc => verify_face threshold c enc
                   | none => (false, 0)
          if v.1 = false then
            (SvcResult.error "Face verification failed. Identity could not be confirmed.", db)
          else
            let rec0 : AttendanceRecord :=
              { id := 0, student_register_number := student.register_number,
                date := currentDate, timeOfDay := nowTime, updated_at := 0,
                status := "Pending", verification_method := "face_only",
                face_confidence := v.2, qr_verified := false,
                verification_status := "pending", verified_by := none,
                verification_notes := none, notification_sent := notifOk }
            (SvcResult.success "Pending" "face_only" v.2,
             { db with records := db.records ++ [rec0] })

/-- `AttendanceService._handle_face_only_attendance` (attendance_service.py
lines 307-394): identify the student via `find_matching_student` (which runs
`verify_face` only — no liveness check), reject duplicates, then commit a
Pending / face_only / verification_status="pending" record. -/
def handle_face_only_attendance (threshold : ℚ) (c : Capture)
    (nowTime : Nat) (currentDate : String) (notifOk : Bool) (db : DB) : SvcResult × DB :=
  match find_matching_student threshold c db.students with
  | none =>
      (SvcResult.error "No matching student found. Please provide register number or valid ID card.", db)
  | some (student, face_confidence) =>
      match findAttendanceToday db.records student.register_number currentDate with
      | some existing =>
          (SvcResult.error ("Attendance already marked for today: " ++ existing.status), db)
      | none =>
          let rec0 : AttendanceRecord :=
            { id := 0, student_register_number := student.register_number,
              date := currentDate, timeOfDay := nowTime, updated_at := 0,
              status := "Pending", verification_method := "face_only",
              face_confidence := face_confidence, qr_verified := false,
              verification_status := "pending", verified_by := none,
              verification_notes := none, notification_sent := notifOk }
          (SvcResult.success "Pending" "face_only" face_confidence,
           { db with records := db.records ++ [rec0] })

/-! ## /mark_attendance_verified (backend/main.py lines 1062-1240) -/

/-- Response shape of /mark_attendance_verified. -/
inductive MarkResult where
  | caseB : MarkResult
  | duplicate (existingStatus : String) : MarkResult
  | success (case attendance_status : String) (face_confidence : ℚ) : MarkResult
deriving DecidableEq

/-- Attendance status carried by a /mark_attendance_verified response, if any. -/
def markStatus : MarkResult → Option String
  | MarkResult.success _ st _ => some st
  | _ => none

/-- The active-student lookup of /mark_attendance_verified (main.py lines
1077-1080). -/
def findStudentActive (db : DB) (reg : String) : Option Student :=
  db.students.find? (fun s => s.register_number == reg && s.is_active)

/-- The opportunistic first-time enrollment commit of /mark_attendance_verified
(main.py lines 1130-1133): `student.face_encoding = face_encoding; db.commit()`.
`register_number` is a unique column, so updating every row with that key
equals mutating the single fetched row. -/
def setStudentEncoding (db : DB) (reg enc : String) : DB :=
  { db with students := db.students.map (fun s =>
      if s.register_number == reg then
        { s with face_encoding := some enc }
      else s) }

/-- /mark_attendance_verified (main.py lines 1062-1240). Control flow of the
source, in order: active-student lookup (miss ⇒ Case B); face verification
with liveness against the stored encoding, or — when no encoding is stored —
encode the submitted image and commit it as the student's encoding (then
`face_match = True, face_confidence = 1.0`); the duplicate check; then Case
A/D record creation on a match (cutoff hard-coded to `time(8, 45)`), else
Case B. `notifOk` is the late-notification outcome, which only toggles
`notification_sent` on the committed Late record. -/
def mark_attendance_verified (threshold livenessThreshold : ℚ) (c : Capture)
    (id_register_number : String) (nowTime : Nat) (currentDate : String)
    (notifOk : Bool) (db : DB) : MarkResult × DB :=
  match findStudentActive db id_register_number with
  | none => (MarkResult.caseB, db)
  | some student =>
      let step : Bool × ℚ × DB :=
        match student.face_encoding with
        | some enc =>
            let v := verify_face_with_liveness threshold livenessThreshold c enc
            (v.1, v.2.1, db)
        | none =>
            if c.faceFound then
              (true, 1, setStudentEncoding db student.register_number c.encoding)
            else
              (false, 0, db)
      let face_match := step.1
      let face_confidence := step.2.1
      let db1 := step.2.2
      match findAttendanceToday db1.records student.register_number currentDate with
      | some existing => (MarkResult.duplicate existing.status, db1)
      | none =>
          if face_match = true then
            let is_late := nowTime > cutoffSeconds
            let attendance_status := if is_late then "Late" else "Present"
            let case := if is_late then "D" else "A"
            let rec0 : AttendanceRecord :=
              { id := 0, student_register_number := student.register_number,
                date := currentDate, timeOfDay := nowTime, updated_at := 0,
                status := attendance_status, verification_method := "face_id",
                face_confidence := face_confidence, qr_verified := true,
                verification_status := "verified", verified_by := none,
                verification_notes := none, notification_sent := false }
            let rec1 := if is_late && notifOk then { rec0 with notification_sent := true } else rec0
            (MarkResult.success case attendance_status face_confidence,
             { db1 with records := db1.records ++ [rec1] })
          else (MarkResult.caseB, db1)

/-! ## Pending-review resolution -/

/-- Result shape of `AttendanceService.verify_pending_attendance`. -/
inductive ResolveResult where
  | error (message : String) : ResolveResult
  | success (action attendance_status : String) : ResolveResult
deriving DecidableEq

/-- ASCII lowercasing of one character (the effect of Python `str.lower` on the
ASCII action strings compared here). -/
def lowerChar (ch : Char) : Char :=
  if 65 ≤ ch.toNat ∧ ch.toNat ≤ 90 then Char.ofNat (ch.toNat + 32) else ch

/-- ASCII `str.lower`, as applied to the `action` form field. -/
def lowerString (s : String) : String := String.mk (s.data.map lowerChar)

/-- `AttendanceService.verify_pending_attendance` (attendance_service.py lines
396-460), reached through the /verify_pending endpoint (main.py lines
1521-1546): the lookup filters on `verification_status == "pending"`, so a
record resolved earlier is simply not found and the call errors without
touching the store. On approve the Present/Late split is recomputed from the
time-of-day stored in the record (`attendance.time.time() > self.cutoff_time`);
`resolveTime` (the source's `datetime.utcnow()`) lands only in `updated_at`.
The `id` column is unique, so updating by id equals mutating the fetched row. -/
def svc_verify_pending_attendance (attendance_id : Nat) (action verifier_username : String)
    (notes : Option String) (cutoff resolveTime : Nat)
    (records : List AttendanceRecord) : ResolveResult × List AttendanceRecord :=
  match records.find? (fun r => r.id == attendance_id && r.verification_status == "pending") with
  | none => (ResolveResult.error "Pending attendance record not found", records)
  | some attendance =>
      if lowerString action == "approve" then
        let is_late := attendance.timeOfDay > cutoff
        let newStatus := if is_late then "Late" else "Present"
        let updated :=
          { attendance with
            status := newStatus,
            verification_status := "verified",
            verified_by := some verifier_username,
            verification_notes := notes,
            updated_at := resolveTime }
        (ResolveResult.success action newStatus,
         records.map (fun r => if r.id == attendance_id then updated else r))
      else if lowerString action == "reject" then
        let updated :=
          { attendance with
            verification_status := "rejected",
            verified_by := some verifier_username,
            verification_notes := notes,
            updated_at := resolveTime }
        (ResolveResult.success action updated.status,
         records.map (fun r => if r.id == attendance_id then updated else r))
      else (ResolveResult.error "Invalid action. Use approve or reject", records)

/-- Response shape of the /verify_pending_attendance/{verification_id}
endpoint. `serverError` is the HTTP 500 its catch-all except clause raises
after `db.rollback()`. -/
inductive ApiResult where
  | notFound (detail : String) : ApiResult
  | badRequest (detail : String) : ApiResult
  | serverError : ApiResult
  | approved (attendance_status : String) : ApiResult
  | rejected (notes : String) : ApiResult
deriving DecidableEq

/-- /verify_pending_attendance/{verification_id} (main.py lines 943-1059).
The PendingVerification lookup has NO status filter (lines 961-963). On
approve, after the student lookup, line 990 reads
`pending_verification.timestamp`, but PendingVerification declares no such
column or attribute (backend/database.py lines 120-135: the column is `time`),
so Python raises AttributeError; the handler's except clause rolls the session
back and raises HTTP 500 — the store is left unchanged. On reject the source
sets `status = "rejected"` plus `verified_by`, `verification_notes` and
`resolved_at`; of these only `status` is a declared column (the model's
columns are `reviewed_by` / `review_notes` / `reviewed_at`), so the commit
persists only the status change. The role check of the endpoint is a
precondition outside this model. -/
def api_verify_pending_attendance (verification_id : Nat) (action : String)
    (register_number : Option String) (notes _username : String) (db : DB) :
    ApiResult × DB :=
  match db.pendings.find? (fun pv => pv.id == verification_id) with
  | none => (ApiResult.notFound "Pending verification not found", db)
  | some _pv =>
      if action == "approve" then
        match register_number with
        | none => (ApiResult.badRequest "Register number required for approval", db)
        | some reg =>
            match db.students.find? (fun s => s.register_number == reg) with
            | none => (ApiResult.notFound "Student not found", db)
            | some _student => (ApiResult.serverError, db)
      else if action == "reject" then
        (ApiResult.rejected notes,
         { db with pendings := db.pendings.map (fun q =>
             if q.id == verification_id then { q with status := "rejected" } else q) })
      else (ApiResult.badRequest "Invalid action. Use approve or reject", db)

/-! ## /create_manual_pending_verification (backend/main.py lines 747-857) -/

/-- The review-note text built at main.py lines 772-780: the identified
register number (empty string when the face identification endpoint found
nobody) is compared with the manually entered one; a mismatch becomes a
WARNING note, never a rejection. -/
def manualVerificationNotes (manual identified username : String) : String :=
  let base := "Manual Case C: Forgot ID card. Entered by " ++ username ++ "."
  if identified ≠ "" then
    if identified = manual then
      base ++ " Face identification confirmed (matched: " ++ identified ++ ")."
    else
      base ++ " WARNING: Face identified as " ++ identified ++
        " but manually entered " ++ manual ++ "."
  else
    base ++ " Face could not be automatically identified."

/-- Response shape of /create_manual_pending_verification. -/
inductive ManualResult where
  | notFound : ManualResult
  | pendingCreated (verification_notes : String) : ManualResult
deriving DecidableEq

/-- /create_manual_pending_verification (main.py lines 747-857): look up the
student by the manually entered register number (404 when absent), build the
notes, commit a Pending / forgot_id_manual / verification_status="pending"
attendance record together with a status="pending" PendingVerification
referencing it — unconditionally, whether the cross-check matched,
mismatched, or found nobody. `attId`/`pvId` stand for the store-assigned
primary keys. -/
def create_manual_pending_verification (manual identified username : String)
    (nowTime : Nat) (currentDate : String) (attId pvId : Nat) (db : DB) :
    ManualResult × DB :=
  match db.students.find? (fun s => s.register_number == manual) with
  | none => (ManualResult.notFound, db)
  | some student =>
      let notes := manualVerificationNotes manual identified username
      let temp : AttendanceRecord :=
        { id := attId, student_register_number := manual,
          date := currentDate, timeOfDay := nowTime, updated_at := 0,
          status := "Pending", verification_method := "forgot_id_manual",
          face_confidence := 0, qr_verified := false,
          verification_status := "pending", verified_by := none,
          verification_notes := none, notification_sent := false }
      let pv : PendingVerification :=
        { id := pvId, attendance_record_id := attId,
          student_register_number := manual, student_name := student.name,
          date := currentDate, timeOfDay := nowTime, face_confidence := 0,
          manual_register_number := if identified ≠ manual then some manual else none,
          status := "pending", reviewed_by := none, review_notes := some notes }
      (ManualResult.pendingCreated notes,
       { db with records := db.records ++ [temp], pendings := db.pendings ++ [pv] })

/-! ## Concrete fixtures (used by witnesses and counterexamples) -/

/-- Signals of a clearly live capture: strong landmark depth variation, open
eyes, rich texture, plausible skin colour. -/
def liveSignals : LivenessImage :=
  LivenessImage.decoded (MeshInput.landmarks (1 / 10) (1 / 4) (1 / 4))
    (TextureInput.features 300 1) (ColorInput.features 1 100)

/-- Signals of a flat replay: the face mesh resolves no landmarks and the
texture/colour statistics are degenerate, so every component scores 0. -/
def flatSignals : LivenessImage :=
  LivenessImage.decoded MeshInput.noLandmarks (TextureInput.features 0 0)
    (ColorInput.features 0 0)

/-- A live capture of the person enrolled under encoding "encA"
(similarity 0.8 to "encA", 0.3 to anything else). -/
def capGood : Capture :=
  { faceFound := true, encoding := "freshEnc",
    sim := fun e => if e == "encA" then 8 / 10 else 3 / 10, live := liveSignals }

/-- The same face as `capGood` but with replay-like liveness signals. -/
def capSpoof : Capture :=
  { faceFound := true, encoding := "freshEnc",
    sim := fun e => if e == "encA" then 8 / 10 else 3 / 10, live := flatSignals }

/-- A live capture of somebody not enrolled (similarity 0.3 to everything). -/
def capStranger : Capture :=
  { faceFound := true, encoding := "freshEnc",
    sim := fun _ => 3 / 10, live := liveSignals }

def stuA : Student :=
  { register_number := "REG001", name := "Asha", is_active := true,
    face_encoding := some "encA" }

def stuB : Student :=
  { register_number := "REG002", name := "Bala", is_active := true,
    face_encoding := some "encB" }

def stuNoEnc : Student :=
  { register_number := "REG003", name := "Chitra", is_active := true,
    face_encoding := none }

/-- An attendance record already committed for REG001 on 2026-01-05. -/
def recPresentA : AttendanceRecord :=
  { id := 1, student_register_number := "REG001", date := "2026-01-05",
    timeOfDay := 30000, updated_at := 0, status := "Present",
    verification_method := "face_qr", face_confidence := 8 / 10,
    qr_verified := true, verification_status := "verified", verified_by := none,
    verification_notes := none, notification_sent := false }

/-- An attendance record already committed for REG003 on 2026-01-05. -/
def recPresentC : AttendanceRecord :=
  { id := 2, student_register_number := "REG003", date := "2026-01-05",
    timeOfDay := 30000, updated_at := 0, status := "Present",
    verification_method := "face_id", face_confidence := 1,
    qr_verified := true, verification_status := "verified", verified_by := none,
    verification_notes := none, notification_sent := false }

/-- A Pending attendance record (id 5) awaiting review, captured after the
08:45 cutoff (10:00:00 = 36000 s). -/
def recPendingLate : AttendanceRecord :=
  { id := 5, student_register_number := "REG001", date := "2026-01-05",
    timeOfDay := 36000, updated_at := 0, status := "Pending",
    verification_method := "face_only", face_confidence := 7 / 10,
    qr_verified := false, verification_status := "pending", verified_by := none,
    verification_notes := none, notification_sent := false }

/-- A PendingVerification that has already been resolved (rejected). -/
def pvResolved : PendingVerification :=
  { id := 7, attendance_record_id := 3, student_register_number := "REG001",
    student_name := "Asha", date := "2026-01-05", timeOfDay := 30000,
    face_confidence := 0, manual_register_number := none, status := "rejected",
    reviewed_by := none, review_notes := none }

/-- Store with no attendance yet today. -/
def dbFresh : DB := { students := [stuA, stuB], records := [], pendings := [] }

/-- Store where REG001 is already marked for 2026-01-05. -/
def dbMarked : DB := { students := [stuA, stuB], records := [recPresentA], pendings := [] }

/-- Store whose only student has no stored face encoding but is already
marked for 2026-01-05. -/
def dbNoEncMarked : DB := { students := [stuNoEnc], records := [recPresentC], pendings := [] }

/-- Store holding one already-resolved PendingVerification. -/
def dbResolved : DB := { students := [stuA], records := [], pendings := [pvResolved] }

/-! ## Theorems -/

/-- C2: evaluation at the failing input. A token-verified capture whose face
matches the stored encoding (similarity 0.8 ≥ threshold 0.6) but whose
liveness check fails (score 0 < 0.35) is hard-failed:
`verify_face_with_liveness` short-circuits to `(false, 0, false)`, so
/mark_attendance_verified answers Case B and commits nothing — contrary to
the claim that attendance still proceeds with a warning (the source's
"face matches but not live — proceeding" branch at main.py lines 1116-1118 is
unreachable). The identify loop does reject the non-live candidate, but the
service-level face-only path records a Pending outcome for the very same
non-live capture because `find_matching_student` never consults liveness. -/
theorem C2_liveness_failure_hard_fails_token_path :
    (verify_face (6 / 10) capSpoof "encA").1 = true ∧
    check_liveness (35 / 100) capSpoof.live = (false, 0) ∧
    verify_face_with_liveness (6 / 10) (35 / 100) capSpoof "encA" = (false, 0, false) ∧
    mark_attendance_verified (6 / 10) (35 / 100) capSpoof "REG001" 30000 "2026-01-05" true dbFresh
      = (MarkResult.caseB, dbFresh) ∧
    identify_student_from_face (6 / 10) (35 / 100) capSpoof dbFresh.students = none ∧
    svcStatus (handle_face_only_attendance (6 / 10) capSpoof 30000 "2026-01-05" true dbFresh).1
      = some "Pending" := by
  refine ⟨?_, ?_, ?_, ?_, ?_, ?_⟩ <;> with_unfolding_all rfl

/-- C3 counterexample: a second resolution attempt on the already-rejected
PendingVerification `pvResolved` through /verify_pending_attendance succeeds
again (it answers `rejected`, not any failure), because the endpoint's lookup
has no resolved-status guard — refuting the claim that it fails with
AlreadyResolved. -/
theorem C3_second_reject_succeeds :
    api_verify_pending_attendance 7 "reject" none "second attempt" "hod1" dbResolved
      = (ApiResult.rejected "second attempt", dbResolved) := by
  with_unfolding_all rfl

/-- C4 counterexample: a forgot-token attempt through
`AttendanceService._handle_forgot_id_attendance` with an operator-supplied
register number, where the face cross-check mismatches (similarity 0.3 <
0.6), is rejected with an error and creates no record at all — refuting the
claim that such attempts always produce a Pending outcome with the mismatch
recorded as a note. -/
theorem C4_forgot_id_mismatch_rejected :
    handle_forgot_id_attendance (6 / 10) capStranger "REG001" 30000 "2026-01-05" true dbFresh
      = (SvcResult.error "Face verification failed. Identity could not be confirmed.", dbFresh) := by
  with_unfolding_all rfl

/-- C6 counterexample: an input on which the liveness evaluator resolves no
face landmarks (with degenerate texture/colour statistics) makes
`check_liveness` return `(false, 0)` at the default 0.35 threshold — not
`live=true` with score 1.0 as claimed: a no-landmark image scores its mesh
component 0 and goes through the normal weighted decision. -/
theorem C6_no_landmarks_can_block :
    check_liveness (35 / 100) flatSignals = (false, 0) := by
  with_unfolding_all rfl

/-- C6 (amended): only an internal exception inside `check_liveness` yields the
availability default `(true, 1.0)`; an unavailable or internally failing
face-mesh evaluator only defaults its component score to 1.0; when the image
decodes but no face landmarks are resolvable the mesh component scores 0.0
and the usual weighted decision applies; and an image that fails to decode
returns `(false, 0.0)`. -/
theorem C6_degraded_mode_defaults :
    (∀ lthr : ℚ, check_liveness lthr LivenessImage.livenessError = (true, 1)) ∧
    check_face_mesh_liveness MeshInput.unavailable = 1 ∧
    check_face_mesh_liveness MeshInput.meshError = 1 ∧
    check_face_mesh_liveness MeshInput.noLandmarks = 0 ∧
    (∀ lthr : ℚ, check_liveness lthr LivenessImage.undecodable = (false, 0)) ∧
    (∀ (lthr : ℚ) (t : TextureInput) (cl : ColorInput),
      (check_liveness lthr (LivenessImage.decoded MeshInput.noLandmarks t cl)).2 =
        check_texture_liveness t * (3 / 10) + check_color_distribution cl * (2 / 10)) := by
  refine ⟨fun _ => rfl, rfl, rfl, rfl, fun _ => rfl, fun lthr t cl => ?_⟩
  simp only [check_liveness, check_face_mesh_liveness]
  ring

/-- C8: on every fully-evaluated image the liveness score is exactly the fixed
weighted combination 0.5 * face-mesh score + 0.3 * texture score + 0.2 *
colour score, the decision is exactly `isLive = (score ≥ livenessThreshold)`,
and the default threshold is 0.35. -/
theorem C8_weighted_liveness_score :
    (∀ (lthr : ℚ) (m : MeshInput) (t : TextureInput) (cl : ColorInput),
      (check_liveness lthr (LivenessImage.decoded m t cl)).2 =
        (5 / 10) * check_face_mesh_liveness m + (3 / 10) * check_texture_liveness t +
          (2 / 10) * check_color_distribution cl) ∧
    (∀ (lthr : ℚ) (m : MeshInput) (t : TextureInput) (cl : ColorInput),
      ((check_liveness lthr (LivenessImage.decoded m t cl)).1 = true ↔
        (check_liveness lthr (LivenessImage.decoded m t cl)).2 ≥ lthr)) ∧
    defaultLivenessThreshold = 35 / 100 := by
  refine ⟨fun lthr m t cl => ?_, fun lthr m t cl => ?_, rfl⟩
  · simp only [check_liveness]
    ring
  · simp only [check_liveness, decide_eq_true_eq]

/-- C1 (amended): the duplicate guard holds on the four guarded marking paths
— whenever an AttendanceRecord already exists for the same (register number,
current date), the three AttendanceService handlers return the duplicate
error with the store completely unchanged, and /mark_attendance_verified
returns the duplicate error with the attendance-record table unchanged (its
first-time-enrollment step may touch only the student row, which C10 makes
explicit). The pending-verification creation endpoints perform no duplicate
check at all and commit a second record for an already-marked key (see the
counterexample below), so the guard is per-path, not a store invariant. -/
theorem C1_duplicate_guard :
    (∀ (thr : ℚ) (c : Capture) (qreg : String) (now : Nat) (date : String)
        (cutoff : Nat) (notifOk : Bool) (db : DB) (s : Student) (ex : AttendanceRecord),
      verify_student_qr db (some qreg) = some s →
      findAttendanceToday db.records s.register_number date = some ex →
      handle_face_qr_attendance thr c (some qreg) now date cutoff notifOk db
        = (SvcResult.error ("Attendance already marked for today: " ++ ex.status), db)) ∧
    (∀ (thr : ℚ) (c : Capture) (reg : String) (now : Nat) (date : String)
        (notifOk : Bool) (db : DB) (s : Student) (ex : AttendanceRecord),
      db.students.find? (fun t => t.register_number == reg && t.is_active) = some s →
      findAttendanceToday db.records s.register_number date = some ex →
      handle_forgot_id_attendance thr c reg now date notifOk db
        = (SvcResult.error ("Attendance already marked for today: " ++ ex.status), db)) ∧
    (∀ (thr : ℚ) (c : Capture) (now : Nat) (date : String) (notifOk : Bool)
        (db : DB) (s : Student) (conf : ℚ) (ex : AttendanceRecord),
      find_matching_student thr c db.students = some (s, conf) →
      findAttendanceToday db.records s.register_number date = some ex →
      handle_face_only_attendance thr c now date notifOk db
        = (SvcResult.error ("Attendance already marked for today: " ++ ex.status), db)) ∧
    (∀ (thr lthr : ℚ) (c : Capture) (reg : String) (now : Nat) (date : String)
        (notifOk : Bool) (db : DB) (s : Student) (ex : AttendanceRecord),
      findStudentActive db reg = some s →
      findAttendanceToday db.records s.register_number date = some ex →
      (mark_attendance_verified thr lthr c reg now date notifOk db).1
          = MarkResult.duplicate ex.status ∧
        ((mark_attendance_verified thr lthr c reg now date notifOk db).2).records
          = db.records) := by
  refine ⟨?_, ?_, ?_, ?_⟩
  · intro thr c qreg now date cutoff notifOk db s ex h1 h2
    simp [handle_face_qr_attendance, h1, h2]
  · intro thr c reg now date notifOk db s ex h1 h2
    simp [handle_forgot_id_attendance, h1, h2]
  · intro thr c now date notifOk db s conf ex h1 h2
    simp [handle_face_only_attendance, h1, h2]
  · intro thr lthr c reg now date notifOk db s ex h1 h2
    cases henc : s.face_encoding with
    | some enc =>
        simp [mark_attendance_verified, h1, h2, henc]
    | none =>
        cases hff : c.faceFound with
        | true =>
            simp [mark_attendance_verified, h1, h2, henc, hff, setStudentEncoding]
        | false =>
            simp [mark_attendance_verified, h1, h2, henc, hff]

/-- C1 witness: in `dbMarked`, where REG001 is already marked Present for
2026-01-05, each path answers the duplicate error and changes nothing. -/
theorem C1_duplicate_guard_witness :
    handle_face_qr_attendance (6 / 10) capGood (some "REG001") 30000 "2026-01-05"
        cutoffSeconds true dbMarked
      = (SvcResult.error "Attendance already marked for today: Present", dbMarked) ∧
    handle_forgot_id_attendance (6 / 10) capGood "REG001" 30000 "2026-01-05" true dbMarked
      = (SvcResult.error "Attendance already marked for today: Present", dbMarked) ∧
    handle_face_only_attendance (6 / 10) capGood 30000 "2026-01-05" true dbMarked
      = (SvcResult.error "Attendance already marked for today: Present", dbMarked) ∧
    (mark_attendance_verified (6 / 10) (35 / 100) capGood "REG001" 30000 "2026-01-05"
          true dbMarked).1
        = MarkResult.duplicate "Present" ∧
      ((mark_attendance_verified (6 / 10) (35 / 100) capGood "REG001" 30000 "2026-01-05"
          true dbMarked).2).records = dbMarked.records := by
  have h1 := C1_duplicate_guard.1 (6 / 10) capGood "REG001" 30000 "2026-01-05"
    cutoffSeconds true dbMarked stuA recPresentA (by with_unfolding_all rfl)
    (by with_unfolding_all rfl)
  have h2 := C1_duplicate_guard.2.1 (6 / 10) capGood "REG001" 30000 "2026-01-05"
    true dbMarked stuA recPresentA (by with_unfolding_all rfl) (by with_unfolding_all rfl)
  have h3 := C1_duplicate_guard.2.2.1 (6 / 10) capGood 30000 "2026-01-05"
    true dbMarked stuA (8 / 10) recPresentA (by with_unfolding_all rfl)
    (by with_unfolding_all rfl)
  have h4 := C1_duplicate_guard.2.2.2 (6 / 10) (35 / 100) capGood "REG001" 30000
    "2026-01-05" true dbMarked stuA recPresentA (by with_unfolding_all rfl)
    (by with_unfolding_all rfl)
  exact ⟨h1, h2, h3, h4⟩

/-- C1 counterexample: the claim quantifies over every attendance-marking
request, but /create_manual_pending_verification performs no duplicate check:
in `dbMarked`, where REG001 already holds the Present record `recPresentA`
for 2026-01-05, the forgot-ID request for REG001 on that same date is not
rejected — it answers pendingCreated and commits a second AttendanceRecord
for the same (register number, date) key. -/
theorem C1_manual_endpoint_ignores_duplicates :
    findAttendanceToday dbMarked.records "REG001" "2026-01-05" = some recPresentA ∧
    (create_manual_pending_verification "REG001" "" "op1" 30000 "2026-01-05"
        11 12 dbMarked).1
      = ManualResult.pendingCreated (manualVerificationNotes "REG001" "" "op1") ∧
    ((create_manual_pending_verification "REG001" "" "op1" 30000 "2026-01-05"
        11 12 dbMarked).2).records
      = dbMarked.records ++
        [{ id := 11, student_register_number := "REG001", date := "2026-01-05",
           timeOfDay := 30000, updated_at := 0, status := "Pending",
           verification_method := "forgot_id_manual", face_confidence := 0,
           qr_verified := false, verification_status := "pending",
           verified_by := none, verification_notes := none,
           notification_sent := false }] := by
  refine ⟨?_, ?_, ?_⟩ <;> with_unfolding_all rfl

/-- C5: on the token+face path the lateness test is strictly greater-than
against the cutoff: both the AttendanceService face+QR handler and
/mark_attendance_verified classify the capture as Late exactly when the
capture time is strictly after the cutoff, so a capture at exactly the
cutoff time classifies as Present. -/
theorem C5_cutoff_strictly_after :
    (∀ (thr : ℚ) (c : Capture) (qreg : String) (date : String) (cutoff now : Nat)
        (notifOk : Bool) (db : DB) (s : Student) (enc : String),
      verify_student_qr db (some qreg) = some s →
      findAttendanceToday db.records s.register_number date = none →
      s.face_encoding = some enc →
      (verify_face thr c enc).1 = true →
      svcStatus (handle_face_qr_attendance thr c (some qreg) now date cutoff notifOk db).1
        = some (if now > cutoff then "Late" else "Present")) ∧
    (∀ (thr lthr : ℚ) (c : Capture) (reg : String) (date : String) (now : Nat)
        (notifOk : Bool) (db : DB) (s : Student) (enc : String),
      findStudentActive db reg = some s →
      findAttendanceToday db.records s.register_number date = none →
      s.face_encoding = some enc →
      (verify_face_with_liveness thr lthr c enc).1 = true →
      markStatus (mark_attendance_verified thr lthr c reg now date notifOk db).1
        = some (if now > cutoffSeconds then "Late" else "Present")) := by
  constructor
  · intro thr c qreg date cutoff now notifOk db s enc h1 h2 henc hmatch
    simp only [handle_face_qr_attendance, Option.isNone_some, Bool.false_eq_true,
      if_false, h1, h2, henc]
    simp [hmatch, svcStatus]
  · intro thr lthr c reg date now notifOk db s enc h1 h2 henc hmatch
    simp only [mark_attendance_verified, h1, henc]
    simp only [h2]
    simp [hmatch, markStatus]

/-- C5 witness: with no prior record, a face+QR capture at exactly the cutoff
(08:45:00 = 31500 s) classifies as Present on both paths. -/
theorem C5_cutoff_strictly_after_witness :
    svcStatus (handle_face_qr_attendance (6 / 10) capGood (some "REG001") cutoffSeconds
        "2026-01-05" cutoffSeconds true dbFresh).1 = some "Present" ∧
    markStatus (mark_attendance_verified (6 / 10) (35 / 100) capGood "REG001" cutoffSeconds
        "2026-01-05" true dbFresh).1 = some "Present" := by
  have h1 := C5_cutoff_strictly_after.1 (6 / 10) capGood "REG001" "2026-01-05"
    cutoffSeconds cutoffSeconds true dbFresh stuA "encA" (by with_unfolding_all rfl)
    (by with_unfolding_all rfl) (by with_unfolding_all rfl) (by with_unfolding_all rfl)
  have h2 := C5_cutoff_strictly_after.2 (6 / 10) (35 / 100) capGood "REG001" "2026-01-05"
    cutoffSeconds true dbFresh stuA "encA" (by with_unfolding_all rfl)
    (by with_unfolding_all rfl) (by with_unfolding_all rfl) (by with_unfolding_all rfl)
  simp only [gt_iff_lt, lt_irrefl, if_false] at h1 h2
  exact ⟨h1, h2⟩

/-- C10: in /mark_attendance_verified, when the looked-up student has no
stored face encoding and the submitted image yields one, the encoding is
committed to the student row before the duplicate check runs: a request then
rejected as a duplicate still leaves the store with the student's
face_encoding replaced by the freshly encoded image. -/
theorem C10_enrollment_precedes_duplicate_check :
    ∀ (thr lthr : ℚ) (c : Capture) (reg : String) (now : Nat) (date : String)
      (notifOk : Bool) (db : DB) (s : Student) (ex : AttendanceRecord),
      findStudentActive db reg = some s →
      s.face_encoding = none →
      c.faceFound = true →
      findAttendanceToday db.records s.register_number date = some ex →
      mark_attendance_verified thr lthr c reg now date notifOk db
        = (MarkResult.duplicate ex.status, setStudentEncoding db s.register_number c.encoding) := by
  intro thr lthr c reg now date notifOk db s ex h1 henc hff h2
  simp only [mark_attendance_verified, h1, henc, hff, if_true]
  simp only [setStudentEncoding] at h2 ⊢
  simp [h2]

/-- C10 witness: REG003 has no stored encoding and is already marked for
2026-01-05; the request is rejected as a duplicate yet the student row ends
up carrying the freshly encoded image. -/
theorem C10_enrollment_precedes_duplicate_check_witness :
    mark_attendance_verified (6 / 10) (35 / 100) capGood "REG003" 30000 "2026-01-05"
        true dbNoEncMarked
      = (MarkResult.duplicate "Present",
         setStudentEncoding dbNoEncMarked "REG003" "freshEnc") ∧
    (setStudentEncoding dbNoEncMarked "REG003" "freshEnc").students
      = [{ stuNoEnc with face_encoding := some "freshEnc" }] := by
  refine ⟨?_, by with_unfolding_all rfl⟩
  exact C10_enrollment_precedes_duplicate_check (6 / 10) (35 / 100) capGood "REG003"
    30000 "2026-01-05" true dbNoEncMarked stuNoEnc recPresentC
    (by with_unfolding_all rfl) (by with_unfolding_all rfl) (by with_unfolding_all rfl)
    (by with_unfolding_all rfl)

/-- C9: when a pending record is approved through
`AttendanceService.verify_pending_attendance` (the resolver behind
/verify_pending, the only path on which an approval can complete), the
Present/Late split is recomputed from the capture time-of-day stored in the
record, compared strictly against the cutoff — the resolution time
`rt` is universally quantified and never influences the resulting status.
The second conjunct shows why the other cited resolver contributes no
approvals at all: /verify_pending_attendance reads the nonexistent
`pending_verification.timestamp` attribute and every approve attempt ends in
the rolled-back server error, leaving the store unchanged. -/
theorem C9_split_recomputed_from_capture_time :
    (∀ (aid : Nat) (verifier : String) (notes : Option String) (cutoff rt : Nat)
        (records : List AttendanceRecord) (r : AttendanceRecord),
      records.find? (fun q => q.id == aid && q.verification_status == "pending") = some r →
      (svc_verify_pending_attendance aid "approve" verifier notes cutoff rt records).1
        = ResolveResult.success "approve" (if r.timeOfDay > cutoff then "Late" else "Present")) ∧
    (∀ (vid : Nat) (reg notes username : String) (db : DB)
        (pv : PendingVerification) (s : Student),
      db.pendings.find? (fun q => q.id == vid) = some pv →
      db.students.find? (fun t => t.register_number == reg) = some s →
      api_verify_pending_attendance vid "approve" (some reg) notes username db
        = (ApiResult.serverError, db)) := by
  constructor
  · intro aid verifier notes cutoff rt records r hfind
    have hlow : lowerString "approve" = "approve" := by with_unfolding_all rfl
    simp only [svc_verify_pending_attendance, hfind, hlow]
    simp
  · intro vid reg notes username db pv s h1 h2
    simp [api_verify_pending_attendance, h1, h2]

/-- C9 witness: the Pending record with id 5, captured at 10:00:00 (after the
08:45 cutoff), is approved as Late whatever the resolution time, and the
broken endpoint approve on `dbResolved` ends in the server error. -/
theorem C9_split_recomputed_from_capture_time_witness :
    (svc_verify_pending_attendance 5 "approve" "hod1" (some "ok") cutoffSeconds 0
        [recPendingLate]).1 = ResolveResult.success "approve" "Late" ∧
    api_verify_pending_attendance 7 "approve" (some "REG001") "n" "hod1" dbResolved
      = (ApiResult.serverError, dbResolved) := by
  have h1 := C9_split_recomputed_from_capture_time.1 5 "hod1" (some "ok") cutoffSeconds 0
    [recPendingLate] recPendingLate (by with_unfolding_all rfl)
  have h2 := C9_split_recomputed_from_capture_time.2 7 "REG001" "n" "hod1" dbResolved
    pvResolved stuA (by with_unfolding_all rfl) (by with_unfolding_all rfl)
  refine ⟨?_, h2⟩
  simpa using h1

/-- C3 (amended): through `AttendanceService.verify_pending_attendance` a
resolution attempt on a record that is no longer in the pending state — in
particular any record already approved (status "verified") or rejected —
fails (reported as "Pending attendance record not found" rather than a
distinct AlreadyResolved error) and leaves every record unchanged. -/
theorem C3_service_resolution_terminal :
    ∀ (aid : Nat) (action verifier : String) (notes : Option String)
      (cutoff rt : Nat) (records : List AttendanceRecord),
      (∀ r ∈ records, r.id = aid → r.verification_status ≠ "pending") →
      svc_verify_pending_attendance aid action verifier notes cutoff rt records
        = (ResolveResult.error "Pending attendance record not found", records) := by
  intro aid action verifier notes cutoff rt records h
  have hnone : records.find?
      (fun r => r.id == aid && r.verification_status == "pending") = none := by
    refine List.find?_eq_none.mpr ?_
    intro r hr
    simp only [Bool.and_eq_true, beq_iff_eq, not_and]
    intro hid
    exact h r hr hid
  simp [svc_verify_pending_attendance, hnone]

/-- C3 witness: a second resolution attempt (of either kind) on the
already-verified record `recPresentA` fails and leaves the store unchanged. -/
theorem C3_service_resolution_terminal_witness :
    svc_verify_pending_attendance 1 "approve" "hod1" none cutoffSeconds 0 [recPresentA]
      = (ResolveResult.error "Pending attendance record not found", [recPresentA]) ∧
    svc_verify_pending_attendance 1 "reject" "hod1" none cutoffSeconds 0 [recPresentA]
      = (ResolveResult.error "Pending attendance record not found", [recPresentA]) := by
  constructor
  · exact C3_service_resolution_terminal 1 "approve" "hod1" none cutoffSeconds 0
      [recPresentA] (by intro r hr; simp at hr; subst hr; intro _; with_unfolding_all decide)
  · exact C3_service_resolution_terminal 1 "reject" "hod1" none cutoffSeconds 0
      [recPresentA] (by intro r hr; simp at hr; subst hr; intro _; with_unfolding_all decide)

/-- C4 (amended): through the /create_manual_pending_verification endpoint a
forgot-token attempt with an operator-entered register number always produces
a Pending outcome — a Pending/forgot_id_manual attendance record plus a
status="pending" PendingVerification — whatever the face-identification
cross-check returned, and a cross-check mismatch only lands as a WARNING in
the review notes; the AttendanceService forgot-ID path, by contrast, rejects
the attempt when face verification fails (see the counterexample) and
creates its Pending record only on a successful match. -/
theorem C4_manual_endpoint_always_pending :
    ∀ (manual identified username : String) (now : Nat) (date : String)
      (attId pvId : Nat) (db : DB) (s : Student),
      db.students.find? (fun t => t.register_number == manual) = some s →
      ∃ (tempRec : AttendanceRecord) (pv : PendingVerification),
        create_manual_pending_verification manual identified username now date attId pvId db
          = (ManualResult.pendingCreated (manualVerificationNotes manual identified username),
             { db with records := db.records ++ [tempRec], pendings := db.pendings ++ [pv] }) ∧
        tempRec.status = "Pending" ∧
        tempRec.verification_method = "forgot_id_manual" ∧
        tempRec.verification_status = "pending" ∧
        pv.status = "pending" ∧
        pv.attendance_record_id = tempRec.id ∧
        pv.review_notes = some (manualVerificationNotes manual identified username) ∧
        (identified ≠ "" → identified ≠ manual →
          manualVerificationNotes manual identified username
            = "Manual Case C: Forgot ID card. Entered by " ++ username ++ "." ++
              " WARNING: Face identified as " ++ identified ++
              " but manually entered " ++ manual ++ ".") := by
  intro manual identified username now date attId pvId db s hfind
  refine ⟨{ id := attId, student_register_number := manual, date := date,
            timeOfDay := now, updated_at := 0, status := "Pending",
            verification_method := "forgot_id_manual", face_confidence := 0,
            qr_verified := false, verification_status := "pending",
            verified_by := none, verification_notes := none,
            notification_sent := false },
          { id := pvId, attendance_record_id := attId,
            student_register_number := manual, student_name := s.name,
            date := date, timeOfDay := now, face_confidence := 0,
            manual_register_number := if identified ≠ manual then some manual else none,
            status := "pending", reviewed_by := none,
            review_notes := some (manualVerificationNotes manual identified username) },
          ?_, rfl, rfl, rfl, rfl, rfl, rfl, ?_⟩
  · simp [create_manual_pending_verification, hfind]
  · intro hne hmm
    simp [manualVerificationNotes, hne, hmm]

/-- C4 witness: the operator enters REG001 while the cross-check identified
REG002; the endpoint still commits the Pending pair, with the mismatch as a
WARNING note. -/
theorem C4_manual_endpoint_always_pending_witness :
    ∃ (tempRec : AttendanceRecord) (pv : PendingVerification),
      create_manual_pending_verification "REG001" "REG002" "op1" 30000 "2026-01-05"
          11 12 dbFresh
        = (ManualResult.pendingCreated (manualVerificationNotes "REG001" "REG002" "op1"),
           { dbFresh with records := dbFresh.records ++ [tempRec],
                          pendings := dbFresh.pendings ++ [pv] }) ∧
      tempRec.status = "Pending" ∧
      tempRec.verification_method = "forgot_id_manual" ∧
      tempRec.verification_status = "pending" ∧
      pv.status = "pending" ∧
      pv.attendance_record_id = tempRec.id ∧
      pv.review_notes = some (manualVerificationNotes "REG001" "REG002" "op1") ∧
      ("REG002" : String) ≠ "" ∧ ("REG002" : String) ≠ "REG001" := by
  obtain ⟨tempRec, pv, h⟩ := C4_manual_endpoint_always_pending "REG001" "REG002" "op1"
    30000 "2026-01-05" 11 12 dbFresh stuA (by with_unfolding_all rfl)
  exact ⟨tempRec, pv, h.1, h.2.1, h.2.2.1, h.2.2.2.1, h.2.2.2.2.1, h.2.2.2.2.2.1,
    h.2.2.2.2.2.2.1, by decide, by decide⟩

/-- A matching candidate has confidence at least the threshold (its confidence
is the similarity that cleared `similarity ≥ threshold`). -/
theorem candConf_matched_ge (thr : ℚ) (c : Capture) (s : Student)
    (h : (candConf thr c s).1 = true) : thr ≤ (candConf thr c s).2 := by
  cases henc : s.face_encoding with
  | none => simp [candConf, henc] at h
  | some enc =>
      simp only [candConf, henc] at h ⊢
      cases hff : c.faceFound with
      | false => simp [verify_face, hff] at h
      | true =>
          simp only [verify_face, hff, if_true, decide_eq_true_eq, ge_iff_le] at h ⊢
          exact h

/-- `fmsStep` never discards an already-found best match. -/
theorem fmsStep_fst_isSome (thr : ℚ) (c : Capture) (acc : Option Student × ℚ)
    (s : Student) (h : acc.1.isSome = true) : ((fmsStep thr c acc s).1).isSome = true := by
  unfold fmsStep
  split
  · rfl
  · exact h

/-- The fold never discards an already-found best match. -/
theorem fms_foldl_isSome (thr : ℚ) (c : Capture) :
    ∀ (l : List Student) (acc : Option Student × ℚ),
      acc.1.isSome = true → (((l.foldl (fmsStep thr c) acc).1).isSome) = true := by
  intro l
  induction l with
  | nil => intro acc h; exact h
  | cons t l ih =>
      intro acc h
      exact ih _ (fmsStep_fst_isSome thr c acc t h)

/-- The scan from the initial `(None, 0.0)` accumulator ends with no best match
exactly when no candidate matches (with a positive threshold, a match always
has positive confidence and so would be recorded). -/
theorem fms_foldl_none_iff (thr : ℚ) (c : Capture) (hthr : 0 < thr) :
    ∀ l : List Student,
      ((l.foldl (fmsStep thr c) (none, 0)).1 = none) ↔
        ∀ s ∈ l, (candConf thr c s).1 = false := by
  intro l
  induction l with
  | nil => simp
  | cons t l ih =>
      simp only [List.foldl_cons, List.mem_cons]
      by_cases hm : (candConf thr c t).1 = true
      · have hpos : (0 : ℚ) < (candConf thr c t).2 :=
          lt_of_lt_of_le hthr (candConf_matched_ge thr c t hm)
        have hstep : fmsStep thr c (none, 0) t = (some t, (candConf thr c t).2) := by
          unfold fmsStep
          rw [if_pos ⟨hm, hpos⟩]
        rw [hstep]
        constructor
        · intro hnone
          have hsome := fms_foldl_isSome thr c l (some t, (candConf thr c t).2) rfl
          rw [hnone] at hsome
          simp at hsome
        · intro hall
          have := hall t (Or.inl rfl)
          rw [hm] at this
          cases this
      · have hm' : (candConf thr c t).1 = false := by
          cases hv : (candConf thr c t).1
          · rfl
          · exact absurd hv hm
        have hstep : fmsStep thr c (none, 0) t = (none, 0) := by
          unfold fmsStep
          rw [if_neg (fun hand => hm hand.1)]
        rw [hstep, ih]
        constructor
        · intro hall s hs
          rcases hs with rfl | hs
          · exact hm'
          · exact hall s hs
        · intro hall s hs
          exact hall s (Or.inr hs)

/-- Invariant of the best-match fold: when the fold ends on `(some s, conf)`,
either the accumulator already was that best and nothing in the list beat it,
or `s` sits somewhere in the list with `conf` as its own matching confidence,
strictly above the incoming accumulator, strictly above every matching
candidate before it, and at least every matching candidate after it. -/
theorem fms_foldl_some_spec (thr : ℚ) (c : Capture) :
    ∀ (l : List Student) (acc : Option Student × ℚ) (s : Student) (conf : ℚ),
      l.foldl (fmsStep thr c) acc = (some s, conf) →
      (acc = (some s, conf) ∧
        ∀ t ∈ l, (candConf thr c t).1 = true → (candConf thr c t).2 ≤ conf) ∨
      (∃ l₁ l₂, l = l₁ ++ s :: l₂ ∧ (candConf thr c s).1 = true ∧
        (candConf thr c s).2 = conf ∧ acc.2 < conf ∧
        (∀ t ∈ l₁, (candConf thr c t).1 = true → (candConf thr c t).2 < conf) ∧
        (∀ t ∈ l₂, (candConf thr c t).1 = true → (candConf thr c t).2 ≤ conf)) := by
  intro l
  induction l with
  | nil =>
      intro acc s conf h
      exact Or.inl ⟨h, by simp⟩
  | cons t l ih =>
      intro acc s conf h
      simp only [List.foldl_cons] at h
      by_cases hc : (candConf thr c t).1 = true ∧ acc.2 < (candConf thr c t).2
      · have hstep : fmsStep thr c acc t = (some t, (candConf thr c t).2) := by
          unfold fmsStep
          rw [if_pos hc]
        rw [hstep] at h
        rcases ih _ _ _ h with ⟨heq, hbound⟩ | ⟨l₁, l₂, hl, hm, hcf, hgt, h₁, h₂⟩
        · have hts : t = s := Option.some.inj (congrArg Prod.fst heq)
          have hcc : (candConf thr c t).2 = conf := congrArg Prod.snd heq
          subst hts
          refine Or.inr ⟨[], l, by simp, hc.1, hcc, ?_, by simp, hbound⟩
          rw [← hcc]
          exact hc.2
        · refine Or.inr ⟨t :: l₁, l₂, by simp [hl], hm, hcf, lt_trans hc.2 hgt, ?_, h₂⟩
          intro u hu hmu
          rcases List.mem_cons.mp hu with rfl | hu
          · exact hgt
          · exact h₁ u hu hmu
      · have hstep : fmsStep thr c acc t = acc := by
          unfold fmsStep
          rw [if_neg hc]
        rw [hstep] at h
        rcases ih _ _ _ h with ⟨heq, hbound⟩ | ⟨l₁, l₂, hl, hm, hcf, hgt, h₁, h₂⟩
        · refine Or.inl ⟨heq, ?_⟩
          intro u hu hmu
          rcases List.mem_cons.mp hu with rfl | hu
          · have hnlt : ¬ acc.2 < (candConf thr c u).2 := fun hlt => hc ⟨hmu, hlt⟩
            have hle := le_of_not_lt hnlt
            rw [heq] at hle
            exact hle
          · exact hbound u hu hmu
        · refine Or.inr ⟨t :: l₁, l₂, by simp [hl], hm, hcf, hgt, ?_, h₂⟩
          intro u hu hmu
          rcases List.mem_cons.mp hu with rfl | hu
          · have hnlt : ¬ acc.2 < (candConf thr c u).2 := fun hlt => hc ⟨hmu, hlt⟩
            exact lt_of_le_of_lt (le_of_not_lt hnlt) hgt
          · exact h₁ u hu hmu

/-- C7: with a positive threshold, `find_matching_student` scans exactly the
active students with a stored embedding; it returns `none` precisely when no
such candidate verifies above the threshold; and when it returns a best
match, that candidate verified with the returned confidence (which clears
the threshold), every matching candidate scanned before it has strictly
lower confidence, and every matching candidate after it does not exceed it —
so on equal confidences the first candidate encountered is kept and a later
candidate replaces the best only with strictly higher confidence. -/
theorem C7_find_matching_student_spec :
    ∀ (thr : ℚ) (c : Capture) (students : List Student), 0 < thr →
      (find_matching_student thr c students = none ↔
        ∀ s ∈ students.filter (fun s => s.is_active && s.face_encoding.isSome),
          (candConf thr c s).1 = false) ∧
      (∀ (s : Student) (conf : ℚ),
        find_matching_student thr c students = some (s, conf) →
        ∃ l₁ l₂,
          students.filter (fun s => s.is_active && s.face_encoding.isSome)
            = l₁ ++ s :: l₂ ∧
          (candConf thr c s).1 = true ∧ (candConf thr c s).2 = conf ∧ thr ≤ conf ∧
          (∀ t ∈ l₁, (candConf thr c t).1 = true → (candConf thr c t).2 < conf) ∧
          (∀ t ∈ l₂, (candConf thr c t).1 = true → (candConf thr c t).2 ≤ conf)) := by
  intro thr c students hthr
  constructor
  · constructor
    · intro hnone
      apply (fms_foldl_none_iff thr c hthr _).mp
      rcases hfold : (students.filter (fun s => s.is_active && s.face_encoding.isSome)).foldl
          (fmsStep thr c) (none, 0) with ⟨o, cf⟩
      cases o with
      | none => rw [hfold]
      | some s' =>
          unfold find_matching_student at hnone
          rw [hfold] at hnone
          cases hnone
    · intro hall
      unfold find_matching_student
      rcases hfold : (students.filter (fun s => s.is_active && s.face_encoding.isSome)).foldl
          (fmsStep thr c) (none, 0) with ⟨o, cf⟩
      cases o with
      | none => rw [hfold]
      | some s' =>
          have hno := (fms_foldl_none_iff thr c hthr _).mpr hall
          rw [hfold] at hno
          cases hno
  · intro s conf hsome
    unfold find_matching_student at hsome
    rcases hfold : (students.filter (fun s => s.is_active && s.face_encoding.isSome)).foldl
        (fmsStep thr c) (none, 0) with ⟨o, cf⟩
    rw [hfold] at hsome
    cases o with
    | none => cases hsome
    | some s' =>
        have hpair : s' = s ∧ cf = conf := by
          have := Option.some.inj hsome
          exact ⟨congrArg Prod.fst this, congrArg Prod.snd this⟩
        obtain ⟨rfl, rfl⟩ := hpair
        rcases fms_foldl_some_spec thr c _ _ _ _ hfold with ⟨heq, _⟩ | hspec
        · cases congrArg Prod.fst heq
        · obtain ⟨l₁, l₂, hl, hm, hcf, _, h₁, h₂⟩ := hspec
          exact ⟨l₁, l₂, hl, hm, hcf,
            hcf ▸ candConf_matched_ge thr c s' hm, h₁, h₂⟩

/-- C7 witness: at threshold 0.6 on `[stuA, stuB]`, the capture matching only
"encA" identifies stuA, and the returned best satisfies the scan
specification. -/
theorem C7_find_matching_student_spec_witness :
    (0 : ℚ) < 6 / 10 ∧
    ((find_matching_student (6 / 10) capGood dbFresh.students = none ↔
        ∀ s ∈ dbFresh.students.filter (fun s => s.is_active && s.face_encoding.isSome),
          (candConf (6 / 10) capGood s).1 = false) ∧
      (∀ (s : Student) (conf : ℚ),
        find_matching_student (6 / 10) capGood dbFresh.students = some (s, conf) →
        ∃ l₁ l₂,
          dbFresh.students.filter (fun s => s.is_active && s.face_encoding.isSome)
            = l₁ ++ s :: l₂ ∧
          (candConf (6 / 10) capGood s).1 = true ∧
          (candConf (6 / 10) capGood s).2 = conf ∧ (6 : ℚ) / 10 ≤ conf ∧
          (∀ t ∈ l₁, (candConf (6 / 10) capGood t).1 = true →
            (candConf (6 / 10) capGood t).2 < conf) ∧
          (∀ t ∈ l₂, (candConf (6 / 10) capGood t).1 = true →
            (candConf (6 / 10) capGood t).2 ≤ conf))) :=
  ⟨by norm_num,
   C7_find_matching_student_spec (6 / 10) capGood dbFresh.students (by norm_num)⟩

end StudentFaceID
